import Mathlib

/-!
Verification development for the "myweb" multi-agent game orchestration
backend.  The Lean definitions below are shallow embeddings of the Python
source:

* `LB`  — the bluffing card game engine (`src/liars_bar_llm/game.py`);
* `REG` — the agent registry's tolerant template renderer
          (`src/backend/ai_registry.py`);
* `WW`  — the social-deduction room (`src/backend/werewolf_room.py`);
* `BR`  — the freeform battle room (`src/backend/battle_room.py`);
* `LBM` — the card-game session manager (`src/backend/liars_bar_manager.py`).

Randomness (`random.choice`, `random.shuffle`) is modelled by explicit
choice-index / permutation parameters; external dialogue generation is a
parameter returning `Option String` (`none` models an `LLMGenerationError`
or an unexpected exception, which the call sites swallow).  Threads and
sockets are abstracted to the state they guard.
-/

namespace LB

/-- Card values of the bluffing card game (`"Q"`, `"K"`, `"A"`, `"Joker"`
strings in the Python source). -/
inductive Card where
  | Q
  | K
  | A
  | Joker
deriving DecidableEq, Repr

/-- Player state of the card game as used by `Game.deal_cards` /
`Game.play_round`: name, alive flag and the ordered hand.
(The chamber / bullet fields live in the separate `player.py`, which the
claims here do not touch.) -/
structure LBPlayer where
  name : String
  alive : Bool
  hand : List Card
deriving DecidableEq, Repr

/-- `Game._create_deck` before the shuffle: `["Q"]*6 + ["K"]*6 + ["A"]*6 +
["Joker"]*2`.  The shuffle is modelled by quantifying over any permutation
of this list. -/
def createDeck : List Card :=
  List.replicate 6 Card.Q ++ List.replicate 6 Card.K ++
    List.replicate 6 Card.A ++ List.replicate 2 Card.Joker

/-- `list.pop()` on a Python list removes and returns the LAST element. -/
def popLast (deck : List Card) : Option (Card × List Card) :=
  match deck.reverse with
  | [] => none
  | c :: rest => some (c, rest.reverse)

/-- One pass of the dealing loop `for player in self.players: if
player.alive and self.deck: player.hand.append(self.deck.pop())`. -/
def dealPass : List LBPlayer → List Card → List LBPlayer × List Card
  | [], deck => ([], deck)
  | p :: ps, deck =>
    if p.alive then
      match popLast deck with
      | some (c, deck1) =>
        let r := dealPass ps deck1
        ({ p with hand := p.hand ++ [c] } :: r.1, r.2)
      | none =>
        let r := dealPass ps deck
        (p :: r.1, r.2)
    else
      let r := dealPass ps deck
      (p :: r.1, r.2)

/-- `for _ in range(k)` around `dealPass`. -/
def dealPasses : Nat → List LBPlayer → List Card → List LBPlayer × List Card
  | 0, ps, deck => (ps, deck)
  | k + 1, ps, deck =>
    let r := dealPass ps deck
    dealPasses k r.1 r.2

/-- `Game.deal_cards`: clear alive players' hands, then five round-robin
passes over the (already shuffled) deck. -/
def dealCards (players : List LBPlayer) (deck : List Card) :
    List LBPlayer × List Card :=
  dealPasses 5
    (players.map (fun p => if p.alive then { p with hand := [] } else p)) deck

/-- Number of alive players. -/
def aliveCount (ps : List LBPlayer) : Nat := ps.countP (·.alive)

/-- Total number of cards held by alive players. -/
def aliveHandSum (ps : List LBPlayer) : Nat :=
  (ps.map (fun p => if p.alive then p.hand.length else 0)).sum

/-- `Game.is_valid_play`: every played card equals the target card or is a
Joker (`self.target_card` is `Optional[str]` in the source). -/
def isValidPlay (targetCard : Option Card) (cards : List Card) : Bool :=
  cards.all (fun card => some card == targetCard || card == Card.Joker)

/-- Outcome of the challenge stage of `Game.play_round`. -/
inductive PlayOutcome where
  | penalized (idx : Nat)
  | turnPassed (idx : Nat)
deriving DecidableEq, Repr

/-- The tail of `Game.play_round` combined with `Game.handle_challenge`:
given the indices of the current and the next player, the played cards and
the next player's challenge decision, either some player is penalized
(`perform_penalty` is invoked on them and the turn pointer is not moved) or
nobody is and `current_player_idx` becomes the next player's index. -/
def resolveChallengePhase (curIdx nextIdx : Nat) (targetCard : Option Card)
    (played : List Card) (wasChallenged : Bool) : PlayOutcome :=
  if wasChallenged then
    if isValidPlay targetCard played then PlayOutcome.penalized nextIdx
    else PlayOutcome.penalized curIdx
  else PlayOutcome.turnPassed nextIdx

/-- Three players, all alive, used as a concrete instance for witnesses. -/
def samplePlayers : List LBPlayer :=
  [⟨"a", true, []⟩, ⟨"b", true, []⟩, ⟨"c", true, []⟩]

/-- Six players, all alive, exceeding the 4-player exact-deal bound. -/
def samplePlayersSix : List LBPlayer :=
  [⟨"a", true, []⟩, ⟨"b", true, []⟩, ⟨"c", true, []⟩,
   ⟨"d", true, []⟩, ⟨"e", true, []⟩, ⟨"f", true, []⟩]

end LB

/-- Python `str.strip()`: drop leading and trailing whitespace.  (An
executable model: `String.trim` itself is defined through `Substring`
helpers that do not reduce in the kernel.) -/
def pyStrip (s : String) : String :=
  ⟨((s.data.dropWhile Char.isWhitespace).reverse.dropWhile
      Char.isWhitespace).reverse⟩

namespace REG

/-- A parsed Python format template: literal runs and `\x7bname\x7d`
placeholders (format specs are not used by any template in the source). -/
inductive Tpl where
  | lit (s : String)
  | hole (key : String)
deriving DecidableEq, Repr

/-- Structured dialogue context: the Python dict passed to `str.format` /
`format_map`, as an association list (all values rendered as strings). -/
abbrev Ctx : Type := List (String × String)

/-- Dict lookup (`context[key]` / `context.get(key)`). -/
def lookupCtx (c : Ctx) (key : String) : Option String :=
  (c.find? (fun kv => kv.1 == key)).map (fun kv => kv.2)

/-- `template.format_map(SafeFormatDict(context))`: a missing key renders
as the untouched placeholder `\x7bkey\x7d` (`SafeFormatDict.__missing__`). -/
def formatMapSafe : List Tpl → Ctx → String
  | [], _ => ""
  | Tpl.lit s :: t, c => s ++ formatMapSafe t c
  | Tpl.hole k :: t, c =>
    (match lookupCtx c k with
     | some v => v
     | none => "\x7b" ++ k ++ "\x7d") ++ formatMapSafe t c

/-- `template.format(**context)`: a missing key raises `KeyError`,
modelled as `none`. -/
def formatStrict : List Tpl → Ctx → Option String
  | [], _ => some ""
  | Tpl.lit s :: t, c => (formatStrict t c).map (fun r => s ++ r)
  | Tpl.hole k :: t, c =>
    match lookupCtx c k with
    | some v => (formatStrict t c).map (fun r => v ++ r)
    | none => none

/-- `AgentDefinition` (`backend/ai_registry.py`).  The `metadata` dict is
modelled by the single key the engines read (`model_override`); the
`sample_dialogue` format string is kept in parsed template form. -/
structure AgentDefinition where
  agentId : String
  displayName : String
  provider : String
  description : String := ""
  model : Option String := none
  sampleDialogue : List Tpl := []
  modelOverride : Option String := none
deriving DecidableEq, Repr

/-- The default dialogue template of `AgentDefinition.render_dialogue`:
`"\x7bagent_name\x7d 在第 \x7bround\x7d 回合采取默认行动。"`. -/
def defaultDialogueTemplate : List Tpl :=
  [Tpl.hole "agent_name", Tpl.lit " 在第 ", Tpl.hole "round",
   Tpl.lit " 回合采取默认行动。"]

/-- `AgentDefinition.render_dialogue`: the agent's sample-dialogue
template (or the default when none is configured) rendered through
`SafeFormatDict`.  (`strip()` of the raw template string is not modelled
at the parsed-template level.) -/
def renderDialogue (agent : AgentDefinition) (context : Ctx) : String :=
  formatMapSafe
    (if agent.sampleDialogue = [] then defaultDialogueTemplate
     else agent.sampleDialogue)
    context

end REG

/-- `Judge` dataclass, defined identically in `battle_room.py` and
`werewolf_room.py`. -/
structure Judge where
  id : Int
  username : String
deriving DecidableEq, Repr

/-- Errors raised by the managers' create paths: `ValueError` (validation),
`RoomAlreadyExistsError` / `GameAlreadyRunningError`, and a `KeyError`
from `AgentRegistry.get_agent` for an unknown id. -/
inductive CreateError where
  | validation (msg : String)
  | alreadyActive (msg : String)
  | unknownAgent (agentId : String)
deriving DecidableEq, Repr

/-- `[agent_id.strip() for agent_id in agent_ids if str(agent_id).strip()]`
(identical in `battle_room.py` and `werewolf_room.py`). -/
def cleanedIds (agentIds : List String) : List String :=
  (agentIds.map pyStrip).filter (fun s => s ≠ "")

/-- `[self._registry.get_agent(agent_id) for agent_id in cleaned_ids]` —
an unknown id raises `KeyError`. -/
def lookupAgents (registry : String → Option REG.AgentDefinition)
    (ids : List String) : Except CreateError (List REG.AgentDefinition) :=
  ids.mapM (fun i =>
    match registry i with
    | some a => Except.ok a
    | none => Except.error (CreateError.unknownAgent i))

namespace WW

/-- The five werewolf-game roles (role strings in the source). -/
inductive Role where
  | werewolf
  | seer
  | witch
  | hunter
  | villager
deriving DecidableEq, Repr

/-- The four phases of `WerewolfRoom._phase` (strings in the source). -/
inductive Phase where
  | setup
  | night
  | day
  | ended
deriving DecidableEq, Repr

/-- `ROLE_TITLES` lookup (total: all five roles are present). -/
def roleTitle : Role → String
  | Role.werewolf => "狼人"
  | Role.seer => "预言家"
  | Role.witch => "女巫"
  | Role.hunter => "猎人"
  | Role.villager => "村民"

/-- `ROLE_BEHAVIORS` lookup. -/
def roleBehavior : Role → String
  | Role.werewolf => "你是一名狼人，与同伴在夜晚暗中合作袭击村民，白天需要伪装成好人并转移怀疑。"
  | Role.seer => "你是预言家，夜晚可以探查一名玩家的阵营，白天要谨慎地引导村民。"
  | Role.witch => "你是女巫，手握一瓶解药和一瓶毒药。你知道夜晚的被袭击者，可以选择救或毒。"
  | Role.hunter => "你是猎人，如果被处决可以发动最后一枪带走一名嫌疑人。"
  | Role.villager => "你是普通村民，没有技能，依靠逻辑与直觉找出狼人。"

/-- `PHASE_TITLES` lookup. -/
def phaseTitle : Phase → String
  | Phase.setup => "准备阶段"
  | Phase.night => "夜晚"
  | Phase.day => "白天"
  | Phase.ended => "游戏结束"

/-- The raw phase string (`phaseCode` in history entries). -/
def phaseCode : Phase → String
  | Phase.setup => "setup"
  | Phase.night => "night"
  | Phase.day => "day"
  | Phase.ended => "ended"

/-- `WerewolfPlayer` dataclass. -/
structure WerewolfPlayer where
  agent : REG.AgentDefinition
  role : Role
  alive : Bool := true
  knowledge : List String := []
deriving DecidableEq, Repr

/-- A werewolf-room history entry as built by
`WerewolfRoom._append_message` (the wall-clock `createdAt` timestamp is
outside the model). -/
structure HistoryEntry where
  type : String
  author : String
  content : String
  phase : String
  phaseCode : String
  round : Nat
  agentId : Option String := none
deriving DecidableEq, Repr

/-- `WerewolfRoom._append_message`: build the entry and append it to the
history — with NO size cap. -/
def appendMessage (history : List HistoryEntry) (messageType author content : String)
    (phase : Phase) (round : Nat) (agentId : Option String := none) :
    List HistoryEntry :=
  history ++ [{ type := messageType, author := author, content := content,
                phase := phaseTitle phase, phaseCode := phaseCode phase,
                round := round, agentId := agentId }]

/-- Mutable state of a `WerewolfRoom` (lock, timestamps and socket set
abstracted away; `_night_target` / `_seer_reveal` hold indices into
`players` in place of Python object references). -/
structure RoomState where
  judge : Judge
  villageName : String
  background : String
  specialRules : String
  players : List WerewolfPlayer
  phase : Phase
  day : Nat
  lastJudgeMessage : String
  history : List HistoryEntry
  nightTarget : Option Nat
  seerReveal : Option Nat
  consumedSave : Bool
  consumedPoison : Bool
deriving DecidableEq, Repr

/-- Absolute index (into the full player list) of the `j`-th player
satisfying `pred`: resolves a `random.choice` over a filtered sub-list
back to a position in `self._players`. -/
def nthSuchIdxAux (pred : WerewolfPlayer → Bool) :
    List WerewolfPlayer → Nat → Nat → Option Nat
  | [], _, _ => none
  | p :: ps, j, i =>
    if pred p then
      if j = 0 then some i else nthSuchIdxAux pred ps (j - 1) (i + 1)
    else nthSuchIdxAux pred ps j (i + 1)

/-- See `nthSuchIdxAux`. -/
def nthSuchIdx (ps : List WerewolfPlayer) (pred : WerewolfPlayer → Bool)
    (j : Nat) : Option Nat :=
  nthSuchIdxAux pred ps j 0

/-- `player.alive = False` through an index (Python mutates the shared
player object in place). -/
def killAt (ps : List WerewolfPlayer) (i : Nat) : List WerewolfPlayer :=
  match ps.get? i with
  | some p => ps.set i { p with alive := false }
  | none => ps

/-- Number of living werewolves (`wolves_alive` in `_check_game_end`). -/
def wolvesAlive (ps : List WerewolfPlayer) : Nat :=
  ps.countP (fun p => p.role == Role.werewolf && p.alive)

/-- Number of living non-werewolves (`villagers_alive` in
`_check_game_end`). -/
def nonwolvesAlive (ps : List WerewolfPlayer) : Nat :=
  ps.countP (fun p => p.role != Role.werewolf && p.alive)

/-- `WerewolfRoom._compose_rules_text`. -/
def composeRulesText (s : RoomState) : String :=
  String.intercalate " | "
    (["背景：" ++ s.background] ++
      (if s.specialRules ≠ "" then ["特殊规则：" ++ s.specialRules] else []))

/-- Display names of living players, comma-joined as in
`_build_context`. -/
def aliveNamesJoined (ps : List WerewolfPlayer) : String :=
  String.intercalate ", "
    ((ps.filter (fun p => p.alive)).map (fun p => p.agent.displayName))

/-- `WerewolfRoom._build_context` (the `round` int is rendered as a
string, as `str.format` would). -/
def buildContext (s : RoomState) (player : WerewolfPlayer)
    (phase objective history : String) : REG.Ctx :=
  [("agent_name", player.agent.displayName),
   ("agent_id", player.agent.agentId),
   ("game_name", s.villageName ++ " 的狼人杀"),
   ("game_rules", composeRulesText s),
   ("round", toString s.day),
   ("judge_message", s.lastJudgeMessage),
   ("phase", phase),
   ("role", roleTitle player.role),
   ("role_brief", roleBehavior player.role),
   ("objective", objective),
   ("alive_players", aliveNamesJoined s.players),
   ("history_summary", history)]

/-- The template of `WerewolfRoom._fallback_dialogue`. -/
def fallbackTemplate : List REG.Tpl :=
  [REG.Tpl.lit "我是 ", REG.Tpl.hole "agent_name",
   REG.Tpl.lit "，当前阶段为 ", REG.Tpl.hole "phase",
   REG.Tpl.lit "，身份是 ", REG.Tpl.hole "role",
   REG.Tpl.lit "。我的任务：", REG.Tpl.hole "objective",
   REG.Tpl.lit "。当前仍在场的玩家：", REG.Tpl.hole "alive_players",
   REG.Tpl.lit "。"]

/-- `WerewolfRoom._fallback_dialogue`: strict `str.format`; if it raises
(missing key) a fixed default line is returned instead. -/
def fallbackDialogue (agent : REG.AgentDefinition) (context : REG.Ctx) : String :=
  match REG.formatStrict fallbackTemplate context with
  | some s => s
  | none =>
    agent.displayName ++ " 在" ++
      ((REG.lookupCtx context "phase").getD "狼人杀") ++ "阶段给出默认回应。"

/-- `WerewolfRoom._call_agent`: a gateway error (`none`) or blank text
falls back to `_fallback_dialogue`. -/
def callAgent (gatewayResult : Option String) (agent : REG.AgentDefinition)
    (context : REG.Ctx) : String :=
  let response := gatewayResult.getD ""
  if pyStrip response = "" then fallbackDialogue agent context else response

/-- Explicit stand-ins for the `random.choice` calls of one night phase. -/
structure NightRand where
  wolfTargetPick : Nat
  seerTargetPick : Nat
  witchActionPick : Nat
  witchPoisonPick : Nat
  hunterRevengePick : Nat
deriving DecidableEq, Repr

/-- `WerewolfRoom._execute_werewolf_actions`.  `gw agentId` is the
dialogue gateway's result for that agent (`none` = generation failure). -/
def executeWerewolfActions (s : RoomState) (gw : String → Option String)
    (r : NightRand) : RoomState :=
  let wolves := s.players.filter (fun p => p.role == Role.werewolf && p.alive)
  if wolves.isEmpty then s
  else
    let others := s.players.filter (fun p => p.role != Role.werewolf && p.alive)
    let targetIdx :=
      if others.isEmpty then none
      else nthSuchIdx s.players (fun p => p.role != Role.werewolf && p.alive)
        (r.wolfTargetPick % others.length)
    let targetName :=
      match targetIdx.bind (fun i => s.players.get? i) with
      | some p => p.agent.displayName
      | none => "无人"
    let s1 := wolves.foldl
      (fun acc wolf =>
        let context := buildContext acc wolf "夜晚"
          ("与你的狼同伴确定袭击目标，目前倾向于：" ++ targetName) ""
        let response := callAgent (gw wolf.agent.agentId) wolf.agent context
        { acc with history := (appendMessage acc.history "ai"
            wolf.agent.displayName response Phase.night acc.day
            (some wolf.agent.agentId)) })
      s
    { s1 with nightTarget := targetIdx }

/-- `WerewolfRoom._execute_seer_action`. -/
def executeSeerAction (s : RoomState) (gw : String → Option String)
    (r : NightRand) : RoomState :=
  match s.players.filter (fun p => p.role == Role.seer && p.alive) with
  | [] => s
  | seer :: _ =>
    let candidates := s.players.filter (fun p => p ≠ seer && p.alive)
    if candidates.isEmpty then s
    else
      let targetIdx := nthSuchIdx s.players (fun p => p ≠ seer && p.alive)
        (r.seerTargetPick % candidates.length)
      let targetName :=
        match targetIdx.bind (fun i => s.players.get? i) with
        | some p => p.agent.displayName
        | none => "无人"
      let targetRole :=
        match targetIdx.bind (fun i => s.players.get? i) with
        | some p => roleTitle p.role
        | none => ""
      let info := "你今夜查验 " ++ targetName ++ "，他/她的身份是：" ++ targetRole
      let context := buildContext s seer "夜晚" info ""
      let response := callAgent (gw seer.agent.agentId) seer.agent context
      { s with
        history := appendMessage s.history "ai" seer.agent.displayName
          response Phase.night s.day (some seer.agent.agentId),
        seerReveal := targetIdx }

/-- The witch's three possible actions (`"救援"`, `"放毒"`, `"旁观"`). -/
inductive WitchChoice where
  | save
  | poison
  | abstain
deriving DecidableEq, Repr

/-- The options list built by `WerewolfRoom._execute_witch_action`:
救援 iff a night target exists and the save is unused, 放毒 iff the
poison is unused, and 旁观 ONLY as a fallback when the list would
otherwise be empty. -/
def witchActions (hasTarget consumedSave consumedPoison : Bool) :
    List WitchChoice :=
  let acts :=
    (if hasTarget && !consumedSave then [WitchChoice.save] else []) ++
      (if !consumedPoison then [WitchChoice.poison] else [])
  if acts.isEmpty then [WitchChoice.abstain] else acts

/-- Index (into the full player list) of the poison victim the witch
would pick: the `random.choice` over living non-witch players. -/
def witchPoisonIdx (s : RoomState) (r : NightRand) : Option Nat :=
  let victims := s.players.filter (fun p => p.role != Role.witch && p.alive)
  if victims.isEmpty then none
  else nthSuchIdx s.players (fun p => p.role != Role.witch && p.alive)
    (r.witchPoisonPick % victims.length)

/-- `WerewolfRoom._execute_witch_action`. -/
def executeWitchAction (s : RoomState) (gw : String → Option String)
    (r : NightRand) : RoomState :=
  match s.players.filter (fun p => p.role == Role.witch && p.alive) with
  | [] => s
  | witch :: _ =>
    let targetName :=
      match s.nightTarget.bind (fun i => s.players.get? i) with
      | some p => p.agent.displayName
      | none => "无人"
    let acts := witchActions s.nightTarget.isSome s.consumedSave s.consumedPoison
    let chosen := acts.getD (r.witchActionPick % acts.length) WitchChoice.abstain
    let (s1, decision) :=
      match chosen with
      | WitchChoice.save =>
        ({ s with consumedSave := true, nightTarget := none },
         if targetName ≠ "无人" then "你决定使用解药救下 " ++ targetName
         else "今晚没有人遇袭，无需使用解药")
      | WitchChoice.poison =>
        let s0 := { s with consumedPoison := true }
        (match witchPoisonIdx s r with
         | some i =>
           ({ s0 with players := killAt s0.players i },
            "你暗中对 " ++
              (match s.players.get? i with
               | some p => p.agent.displayName
               | none => "") ++ " 使用了毒药。")
         | none => (s0, "你没有找到合适的对象，保留毒药。"))
      | WitchChoice.abstain => (s, "你选择保持沉默，今晚不使用药水。")
    let context := buildContext s1 witch "夜晚"
      (decision ++ " 当前夜晚信息：可能的袭击目标是 " ++ targetName) ""
    let response := callAgent (gw witch.agent.agentId) witch.agent context
    { s1 with history := (appendMessage s1.history "ai"
        witch.agent.displayName response Phase.night s1.day
        (some witch.agent.agentId)) }

/-- `WerewolfRoom._trigger_hunter_revenge` (note: in this file, unlike
the spec's description, the revenge shot does NOT recurse on a hunter
victim). -/
def triggerHunterRevenge (s : RoomState) (hunter : WerewolfPlayer)
    (r : NightRand) : RoomState :=
  let targets := s.players.filter (fun p => p.alive && p ≠ hunter)
  if targets.isEmpty then s
  else
    match nthSuchIdx s.players (fun p => p.alive && p ≠ hunter)
        (r.hunterRevengePick % targets.length) with
    | none => s
    | some i =>
      let targetName :=
        match s.players.get? i with
        | some p => p.agent.displayName
        | none => ""
      let targetRole :=
        match s.players.get? i with
        | some p => roleTitle p.role
        | none => ""
      { s with
        players := killAt s.players i,
        history := appendMessage s.history "system" "主持人"
          ("猎人 " ++ hunter.agent.displayName ++ " 临死前开枪带走了 " ++
            targetName ++ "。他/她的身份是 " ++ targetRole ++ "。")
          s.phase s.day }

/-- `WerewolfRoom._resolve_night_outcome`: the non-saved pending target
dies (hunter revenge included) and the outcome message is returned.  No
victory check happens here. -/
def resolveNightOutcome (s : RoomState) (r : NightRand) :
    RoomState × String :=
  let victim := s.nightTarget.bind (fun i => (s.players.get? i).map (fun p => (i, p)))
  let s0 := { s with nightTarget := none }
  match victim with
  | some (i, p) =>
    if p.alive then
      let s1 := { s0 with players := killAt s0.players i }
      let s2 :=
        if p.role == Role.hunter then
          triggerHunterRevenge s1 { p with alive := false } r
        else s1
      (s2, "天亮后发现 " ++ p.agent.displayName ++ " 遭遇不幸，真实身份是 " ++
        roleTitle p.role ++ "。")
    else (s0, "天亮后没有发现伤亡。")
  | none => (s0, "天亮后没有发现伤亡。")

/-- `WerewolfRoom._run_night_phase` up to and including its final phase
transition (the source then immediately calls `_run_day_phase`; claims
about the transition point are settled on this function).  Note the
structure of the source: `_resolve_night_outcome` never sets the phase,
and `_check_game_end` is not called anywhere during the night, so the
`if self._phase != "ended"` guard always passes. -/
def runNightPhase (s : RoomState) (gw : String → Option String)
    (r : NightRand) : RoomState :=
  let s0 := { s with phase := Phase.night, nightTarget := none,
                     seerReveal := none }
  let s1 := { s0 with history := (appendMessage s0.history "system" "主持人"
    ("第 " ++ toString s0.day ++ " 天夜晚降临，所有玩家闭眼。")
    Phase.night s0.day) }
  let s2 := executeWerewolfActions s1 gw r
  let s3 := executeSeerAction s2 gw r
  let s4 := executeWitchAction s3 gw r
  let s5 := (resolveNightOutcome s4 r).1
  let s6 := { s5 with history := (appendMessage s5.history "system" "主持人"
    (resolveNightOutcome s4 r).2 Phase.night s5.day) }
  if s6.phase ≠ Phase.ended then
    { s6 with
      phase := Phase.day,
      history := (appendMessage s6.history "system" "主持人"
        ("天亮了，第 " ++ toString s6.day ++ " 天白天开始。")
        Phase.day s6.day) }
  else s6

/-- `WerewolfRoom._assign_roles`: the fixed role pool before the shuffle
(2 wolves, 1 seer, 2 villagers; a witch from 6 players; a hunter from 7;
villagers pad the rest). -/
def rolePool (n : Nat) : List Role :=
  let roles :=
    [Role.werewolf, Role.werewolf, Role.seer, Role.villager, Role.villager] ++
      (if 6 ≤ n then [Role.witch] else []) ++
      (if 7 ≤ n then [Role.hunter] else [])
  roles ++ List.replicate (n - roles.length) Role.villager

/-- `WerewolfRoom._assign_roles`: fewer than five agents raise
`ValueError`; otherwise the shuffled pool is zipped with the agents.  The
`random.shuffle` is the `shuffle` parameter (any permutation). -/
def assignRoles (agents : List REG.AgentDefinition)
    (shuffle : List Role → List Role) :
    Except String (List WerewolfPlayer) :=
  if agents.length < 5 then Except.error "狼人杀至少需要 5 名玩家。"
  else Except.ok ((agents.zip (shuffle (rolePool agents.length))).map
    (fun ar => { agent := ar.1, role := ar.2, alive := true, knowledge := [] }))

/-- The public per-player dict of `WerewolfPlayer.to_public_dict`: the
`role` key is present iff `reveal_role` was passed. -/
structure PlayerPublicView where
  id : String
  displayName : String
  provider : String
  description : String
  alive : Bool
  role : Option Role
deriving DecidableEq, Repr

/-- `WerewolfPlayer.to_public_dict`. -/
def toPublicDict (p : WerewolfPlayer) (revealRole : Bool) : PlayerPublicView :=
  { id := p.agent.agentId,
    displayName := p.agent.displayName,
    provider := p.agent.provider,
    description := p.agent.description,
    alive := p.alive,
    role := if revealRole then some p.role else none }

/-- The `players` list of `WerewolfRoom.to_payload`: roles are revealed
exactly when the phase is `ended`. -/
def payloadPlayers (s : RoomState) : List PlayerPublicView :=
  s.players.map (fun p => toPublicDict p (s.phase == Phase.ended))

/-- `WerewolfRoom._format_player_lineup`. -/
def formatPlayerLineup (ps : List WerewolfPlayer) : String :=
  "参战 AI 阵容：" ++
    String.intercalate ", " (ps.map (fun p => p.agent.displayName)) ++
    "。身份已秘密分配。"

/-- `WerewolfRoom.start_game`: only from `setup`; moves to `night`,
day 1, and appends the opening messages. -/
def startGame (s : RoomState) (judgeMessage : String) : RoomState :=
  if s.phase ≠ Phase.setup then s
  else
    let s1 := { s with day := 1, phase := Phase.night,
                       lastJudgeMessage := pyStrip judgeMessage }
    let s2 := { s1 with history := (appendMessage s1.history "system" "主持人"
      ("AI 狼人杀《" ++ s.villageName ++ "》开局。背景：" ++ s.background ++
        (if s.specialRules ≠ "" then " 特殊规则：" ++ s.specialRules else ""))
      Phase.night s1.day) }
    let s3 :=
      if pyStrip judgeMessage ≠ "" then
        { s2 with history := (appendMessage s2.history "judge"
            s.judge.username (pyStrip judgeMessage) Phase.night s2.day) }
      else s2
    { s3 with history := (appendMessage s3.history "system" "主持人"
        (formatPlayerLineup s3.players) Phase.night s3.day) }

/-- `WerewolfRoomManager.create_room` before the lock-guarded activation
check: validation, registry lookups and room construction (role
assignment and the player-order shuffle happen in `WerewolfRoom.__init__`,
both passed here as permutation parameters). -/
def validateAndBuildRoom (registry : String → Option REG.AgentDefinition)
    (judgeAccount : Judge) (villageName background specialRules : String)
    (agentIds : List String) (roleShuffle : List Role → List Role)
    (playerShuffle : List WerewolfPlayer → List WerewolfPlayer) :
    Except CreateError RoomState :=
  let ids := cleanedIds agentIds
  if ids.length < 5 then
    Except.error (CreateError.validation "必须至少选择 5 个 AI 参与狼人杀。")
  else if ids.dedup.length ≠ ids.length then
    Except.error (CreateError.validation "请勿重复选择相同的 AI。")
  else
    let name := pyStrip villageName
    let story := pyStrip background
    if name = "" then
      Except.error (CreateError.validation "村庄名称不能为空。")
    else if story = "" then
      Except.error (CreateError.validation "背景故事不能为空。")
    else
      (lookupAgents registry ids).bind (fun agents =>
        ((assignRoles agents roleShuffle).mapError CreateError.validation).map
          (fun players =>
            { judge := judgeAccount,
              villageName := name,
              background := story,
              specialRules := pyStrip specialRules,
              players := playerShuffle players,
              phase := Phase.setup,
              day := 0,
              lastJudgeMessage := "",
              history := [],
              nightTarget := none,
              seerReveal := none,
              consumedSave := false,
              consumedPoison := false }))

/-- `WerewolfRoomManager.create_room`: build and validate first, then
fail with `RoomAlreadyExistsError` if a room is active, else install the
room and start the game with the opening brief. -/
def createRoom (state : Option RoomState)
    (registry : String → Option REG.AgentDefinition) (judgeAccount : Judge)
    (villageName background specialRules : String) (agentIds : List String)
    (openingBrief : String) (roleShuffle : List Role → List Role)
    (playerShuffle : List WerewolfPlayer → List WerewolfPlayer) :
    Option RoomState × Except CreateError RoomState :=
  match validateAndBuildRoom registry judgeAccount villageName background
      specialRules agentIds roleShuffle playerShuffle with
  | Except.error e => (state, Except.error e)
  | Except.ok room =>
    match state with
    | some _ => (state, Except.error (CreateError.alreadyActive "狼人杀房间已存在"))
    | none =>
      let room1 := startGame room openingBrief
      (some room1, Except.ok room1)

end WW

namespace BR

/-- A battle-room history entry as built by `BattleRoom._append_message`
(wall-clock timestamps outside the model). -/
structure HistoryEntry where
  type : String
  author : String
  content : String
  round : Nat
  agentId : Option String := none
deriving DecidableEq, Repr

/-- `BattleRoom._append_message`: a plain append with NO size cap. -/
def appendMessage (history : List HistoryEntry)
    (messageType author content : String) (roundNumber : Nat)
    (agentId : Option String := none) : List HistoryEntry :=
  history ++ [{ type := messageType, author := author, content := content,
                round := roundNumber, agentId := agentId }]

/-- `BattleRoom` state (lock/socket layer abstracted). -/
structure BattleRoom where
  judge : Judge
  gameName : String
  gameRules : String
  agents : List REG.AgentDefinition
  round : Nat
  lastJudgeMessage : String
  history : List HistoryEntry
deriving DecidableEq, Repr

/-- `BattleRoom.append_initial_message`. -/
def appendInitialMessage (room : BattleRoom) : BattleRoom :=
  { room with history := (appendMessage room.history "system" "系统"
      ("裁判 " ++ room.judge.username ++ " 创建了博弈《" ++ room.gameName ++
        "》。规则：" ++ room.gameRules) 0) }

/-- The response selection of `BattleRoom.run_agent_turn`: a gateway
error (`none`) or blank text falls back to the agent's tolerant template
(`AgentDefinition.render_dialogue`). -/
def runAgentTurnResponse (gatewayResult : Option String)
    (agent : REG.AgentDefinition) (context : REG.Ctx) : String :=
  let response := gatewayResult.getD ""
  if pyStrip response = "" then REG.renderDialogue agent context else response

/-- `BattleRoomManager.create_room` before the lock-guarded activation
check: validation (4 or 5 cleaned distinct ids, non-empty name/rules),
registry lookups, room construction and the initial system message. -/
def validateAndBuildRoom (registry : String → Option REG.AgentDefinition)
    (judgeAccount : Judge) (gameName gameRules : String)
    (agentIds : List String) : Except CreateError BattleRoom :=
  let ids := cleanedIds agentIds
  if ids.length < 4 ∨ 5 < ids.length then
    Except.error (CreateError.validation "必须选择 4 或 5 个 AI 参与博弈。")
  else if ids.dedup.length ≠ ids.length then
    Except.error (CreateError.validation "请勿重复选择相同的 AI。")
  else
    let name := pyStrip gameName
    let rules := pyStrip gameRules
    if name = "" then
      Except.error (CreateError.validation "游戏名称不能为空。")
    else if rules = "" then
      Except.error (CreateError.validation "游戏规则不能为空。")
    else
      (lookupAgents registry ids).map (fun agents =>
        appendInitialMessage
          { judge := judgeAccount, gameName := name, gameRules := rules,
            agents := agents, round := 0, lastJudgeMessage := "",
            history := [] })

/-- `BattleRoomManager.create_room`: build and validate first, then fail
with `RoomAlreadyExistsError` under the lock if a room is active, else
install the new room. -/
def createRoom (state : Option BattleRoom)
    (registry : String → Option REG.AgentDefinition) (judgeAccount : Judge)
    (gameName gameRules : String) (agentIds : List String) :
    Option BattleRoom × Except CreateError BattleRoom :=
  match validateAndBuildRoom registry judgeAccount gameName gameRules agentIds with
  | Except.error e => (state, Except.error e)
  | Except.ok room =>
    match state with
    | some _ => (state, Except.error (CreateError.alreadyActive "房间已存在"))
    | none => (some room, Except.ok room)

end BR

namespace LBM

/-- A card-game manager history entry as produced by
`_build_history_entry` (the raw payload dict and timestamps are
abstracted to the summary fields). -/
structure EventEntry where
  eventType : String
  author : String
  content : String
  thinking : Option String := none
deriving DecidableEq, Repr

/-- `LiarsBarGameManager._handle_event` history maintenance: append the
entry, then `self._history = self._history[-300:]` when the length
exceeds 300 (keep the newest 300). -/
def handleEventHistory (history : List EventEntry) (entry : EventEntry) :
    List EventEntry :=
  let h2 := history ++ [entry]
  if 300 < h2.length then h2.drop (h2.length - 300) else h2

/-- The `_state` dict fields written by the create path. -/
structure StateRec where
  title : String
  scenario : String
  status : String
  round : Nat
  winner : Option String
deriving DecidableEq, Repr

/-- `LiarsBarGameManager` mutable state: the `Game` handle is abstracted
to the player display names it runs over; `threadAlive` models
`self._game_thread.is_alive()`. -/
structure ManagerState where
  game : Option (List String)
  threadAlive : Bool
  history : List EventEntry
  stateRec : Option StateRec
  playerOrder : List String
deriving DecidableEq, Repr

/-- `display_name or agent_id` plus `_resolve_model`
(`metadata.get("model_override") or agent.model`, `ValueError` when
absent) for one agent. -/
def resolvePlayerConfig (agent : REG.AgentDefinition) :
    Except CreateError (String × String) :=
  let displayName :=
    if agent.displayName ≠ "" then agent.displayName else agent.agentId
  match (match agent.modelOverride with
         | some m => some m
         | none => agent.model) with
  | some m => Except.ok (displayName, m)
  | none => Except.error (CreateError.validation
      ("Agent " ++ agent.agentId ++ " 未配置模型。"))

/-- The per-agent loop of `create_game`: registry lookups and player
configs (modelled atomically; no claim depends on the partially rebuilt
bookkeeping a mid-loop `KeyError` would leave behind). -/
def buildPlayerConfigs (registry : String → Option REG.AgentDefinition)
    (agentIds : List String) : Except CreateError (List (String × String)) :=
  agentIds.mapM (fun agentId =>
    match registry agentId with
    | some agent => resolvePlayerConfig agent
    | none => Except.error (CreateError.unknownAgent agentId))

/-- `LiarsBarGameManager.create_game`: the already-running check comes
FIRST (before any validation or mutation), then the two-player minimum on
the raw id list (no dedup, no upper bound), then the bookkeeping reset
and the game/worker-thread start. -/
def createGame (st : ManagerState)
    (registry : String → Option REG.AgentDefinition)
    (title scenario : String) (agentIds : List String) :
    ManagerState × Except CreateError (List String) :=
  if st.game.isSome && st.threadAlive then
    (st, Except.error (CreateError.alreadyActive "已有游戏正在运行。"))
  else if agentIds.length < 2 then
    (st, Except.error (CreateError.validation "请选择至少 2 名 AI 玩家。"))
  else
    match buildPlayerConfigs registry agentIds with
    | Except.error e => (st, Except.error e)
    | Except.ok configs =>
      let names := configs.map (fun c => c.1)
      ({ game := some names,
         threadAlive := true,
         history := [],
         stateRec := some
           { title := if title ≠ "" then title else "AI 骗子酒馆对决",
             scenario := scenario,
             status := "preparing", round := 0, winner := none },
         playerOrder := names },
       Except.ok names)

end LBM

namespace FIX

/-- A minimal agent definition used in concrete instantiations. -/
def mkAgent (i : String) : REG.AgentDefinition :=
  { agentId := i, displayName := i, provider := "gpt", description := "",
    model := some "m", sampleDialogue := [], modelOverride := none }

/-- A five-agent registry. -/
def registry : String → Option REG.AgentDefinition := fun i =>
  if i = "a1" ∨ i = "a2" ∨ i = "a3" ∨ i = "a4" ∨ i = "a5" then
    some (mkAgent i)
  else none

/-- A concrete judge account. -/
def judgeJ : Judge := { id := 1, username := "j" }

/-- A dialogue context missing the `role` key (the werewolf fallback
template needs it). -/
def ctxNoRole : REG.Ctx :=
  [("agent_name", "甲"), ("phase", "夜晚"), ("objective", "目标"),
   ("alive_players", "甲, 乙")]

/-- The agent `a1`. -/
def agentA : REG.AgentDefinition := mkAgent "a1"

/-- A player with the given id and role, alive. -/
def mkPlayer (i : String) (role : WW.Role) : WW.WerewolfPlayer :=
  { agent := mkAgent i, role := role, alive := true, knowledge := [] }

/-- A five-player night-phase room (2 wolves, 1 seer, 2 villagers; no
witch), fresh potions, no pending target. -/
def nightState : WW.RoomState :=
  { judge := judgeJ, villageName := "v", background := "b",
    specialRules := "",
    players := [mkPlayer "a1" WW.Role.werewolf, mkPlayer "a2" WW.Role.werewolf,
      mkPlayer "a3" WW.Role.seer, mkPlayer "a4" WW.Role.villager,
      mkPlayer "a5" WW.Role.villager],
    phase := WW.Phase.night, day := 1, lastJudgeMessage := "",
    history := [], nightTarget := none, seerReveal := none,
    consumedSave := false, consumedPoison := false }

/-- A room whose witch faces a pending kill with both potions unused. -/
def witchState : WW.RoomState :=
  { judge := judgeJ, villageName := "v", background := "b",
    specialRules := "",
    players := [mkPlayer "a1" WW.Role.witch, mkPlayer "a2" WW.Role.villager,
      mkPlayer "a3" WW.Role.werewolf, mkPlayer "a4" WW.Role.villager,
      mkPlayer "a5" WW.Role.seer],
    phase := WW.Phase.night, day := 1, lastJudgeMessage := "",
    history := [], nightTarget := some 1, seerReveal := none,
    consumedSave := false, consumedPoison := false }

/-- All `random.choice` picks resolved to the first element. -/
def zeroRand : WW.NightRand := ⟨0, 0, 0, 0, 0⟩

/-- A battle-room history entry. -/
def brEntry : BR.HistoryEntry :=
  { type := "system", author := "系统", content := "x", round := 0,
    agentId := none }

/-- A werewolf-room history entry. -/
def wwEntry : WW.HistoryEntry :=
  { type := "system", author := "主持人", content := "x",
    phase := WW.phaseTitle WW.Phase.night,
    phaseCode := WW.phaseCode WW.Phase.night, round := 1, agentId := none }

/-- A card-game manager event entry. -/
def lbmEntry (i : Nat) : LBM.EventEntry :=
  { eventType := "play", author := "p", content := toString i,
    thinking := none }

/-- A liars-bar manager state with a live game. -/
def lbmActive : LBM.ManagerState :=
  { game := some ["p1", "p2"], threadAlive := true, history := [],
    stateRec := none, playerOrder := ["p1", "p2"] }

/-- A liars-bar manager state with no game. -/
def lbmIdle : LBM.ManagerState :=
  { game := none, threadAlive := false, history := [],
    stateRec := none, playerOrder := [] }

/-- Seven agents, for a role assignment with both witch and hunter. -/
def agents7 : List REG.AgentDefinition :=
  [mkAgent "a1", mkAgent "a2", mkAgent "a3", mkAgent "a4", mkAgent "a5",
   mkAgent "a6", mkAgent "a7"]

/-- A pre-existing battle room occupying the manager slot. -/
def battleRoom0 : BR.BattleRoom :=
  { judge := judgeJ, gameName := "g", gameRules := "r", agents := [],
    round := 0, lastJudgeMessage := "", history := [] }

/-- The battle room a valid four-agent create request builds. -/
def builtBattleRoom : BR.BattleRoom :=
  BR.appendInitialMessage
    { judge := judgeJ, gameName := "博弈", gameRules := "规则",
      agents := [mkAgent "a1", mkAgent "a2", mkAgent "a3", mkAgent "a4"],
      round := 0, lastJudgeMessage := "", history := [] }

end FIX

namespace LB

theorem popLast_eq_none {d : List Card} (h : popLast d = none) : d = [] := by
  unfold popLast at h
  rcases hr : d.reverse with _ | ⟨c, rest⟩
  · exact List.reverse_eq_nil_iff.mp hr
  · rw [hr] at h
    simp at h

theorem popLast_some_length {d d1 : List Card} {c : Card}
    (h : popLast d = some (c, d1)) : d.length = d1.length + 1 := by
  unfold popLast at h
  rcases hr : d.reverse with _ | ⟨x, rest⟩
  · rw [hr] at h
    simp at h
  · rw [hr] at h
    simp only [Option.some.injEq, Prod.mk.injEq] at h
    have hlen : d.reverse.length = rest.length + 1 := by rw [hr]; simp
    rw [List.length_reverse] at hlen
    rw [hlen, ← h.2]
    simp

theorem aliveCount_cons (p : LBPlayer) (ps : List LBPlayer) :
    aliveCount (p :: ps) = (if p.alive then 1 else 0) + aliveCount ps := by
  simp [aliveCount, List.countP_cons]
  by_cases h : p.alive <;> simp [h] <;> omega

theorem aliveHandSum_cons (p : LBPlayer) (ps : List LBPlayer) :
    aliveHandSum (p :: ps) =
      (if p.alive then p.hand.length else 0) + aliveHandSum ps := by
  simp [aliveHandSum]

theorem dealPass_aliveCount (ps : List LBPlayer) (d : List Card) :
    aliveCount (dealPass ps d).1 = aliveCount ps := by
  induction ps generalizing d with
  | nil => simp [dealPass]
  | cons p ps ih =>
    by_cases hp : p.alive
    · rcases hpop : popLast d with _ | ⟨c, d1⟩
      · simp [dealPass, hp, hpop, aliveCount_cons, ih]
      · simp [dealPass, hp, hpop, aliveCount_cons, ih]
    · simp [dealPass, hp, aliveCount_cons, ih]

theorem dealPass_deck_length (ps : List LBPlayer) (d : List Card) :
    (dealPass ps d).2.length = d.length - min (aliveCount ps) d.length := by
  induction ps generalizing d with
  | nil => simp [dealPass, aliveCount]
  | cons p ps ih =>
    by_cases hp : p.alive
    · rcases hpop : popLast d with _ | ⟨c, d1⟩
      · have hd : d = [] := popLast_eq_none hpop
        subst hd
        simp [dealPass, hp, popLast, ih]
      · have hlen : d.length = d1.length + 1 := popLast_some_length hpop
        have := ih d1
        simp only [dealPass, hp, hpop, if_true]
        rw [aliveCount_cons, hlen]
        simp only [hp, if_true]
        omega
    · simp only [dealPass, hp, Bool.false_eq_true, if_false]
      rw [aliveCount_cons]
      simp only [hp, Bool.false_eq_true, if_false]
      rw [ih]
      omega

theorem dealPass_conserve (ps : List LBPlayer) (d : List Card) :
    aliveHandSum (dealPass ps d).1 + (dealPass ps d).2.length =
      aliveHandSum ps + d.length := by
  induction ps generalizing d with
  | nil => simp [dealPass]
  | cons p ps ih =>
    by_cases hp : p.alive
    · rcases hpop : popLast d with _ | ⟨c, d1⟩
      · have hd : d = [] := popLast_eq_none hpop
        subst hd
        simp only [dealPass, hp, popLast, List.reverse_nil, if_true]
        rw [aliveHandSum_cons, aliveHandSum_cons]
        have := ih []
        simp only [hp, if_true]
        omega
      · have hlen : d.length = d1.length + 1 := popLast_some_length hpop
        have := ih d1
        simp only [dealPass, hp, hpop, if_true]
        rw [aliveHandSum_cons, aliveHandSum_cons]
        simp only [hp, if_true, List.length_append, List.length_cons,
          List.length_nil]
        omega
    · simp only [dealPass, hp, Bool.false_eq_true, if_false]
      rw [aliveHandSum_cons, aliveHandSum_cons]
      simp only [hp, Bool.false_eq_true, if_false]
      have := ih d
      omega

theorem dealPass_exact (ps : List LBPlayer) (d : List Card)
    (h : aliveCount ps ≤ d.length) :
    (dealPass ps d).1.map (fun p => (p.alive, p.hand.length)) =
      ps.map (fun p => (p.alive, p.hand.length + if p.alive then 1 else 0)) := by
  induction ps generalizing d with
  | nil => simp [dealPass]
  | cons p ps ih =>
    by_cases hp : p.alive
    · rcases hpop : popLast d with _ | ⟨c, d1⟩
      · have hd : d = [] := popLast_eq_none hpop
        subst hd
        rw [aliveCount_cons] at h
        simp [hp] at h
      · have hlen : d.length = d1.length + 1 := popLast_some_length hpop
        rw [aliveCount_cons] at h
        simp only [hp, if_true] at h
        have hrec := ih d1 (by omega)
        simp [dealPass, hp, hpop, hrec]
    · rw [aliveCount_cons] at h
      simp only [hp, if_false] at h
      have hrec := ih d (by omega)
      simp [dealPass, hp, hrec]

theorem dealPasses_aliveCount (k : Nat) (ps : List LBPlayer) (d : List Card) :
    aliveCount (dealPasses k ps d).1 = aliveCount ps := by
  induction k generalizing ps d with
  | zero => simp [dealPasses]
  | succ k ih =>
    simp only [dealPasses]
    rw [ih, dealPass_aliveCount]

theorem dealPasses_deck_length (k : Nat) (ps : List LBPlayer) (d : List Card) :
    (dealPasses k ps d).2.length =
      d.length - min (k * aliveCount ps) d.length := by
  induction k generalizing ps d with
  | zero => simp [dealPasses]
  | succ k ih =>
    simp only [dealPasses]
    rw [ih, dealPass_aliveCount, dealPass_deck_length]
    have hmul : (k + 1) * aliveCount ps = k * aliveCount ps + aliveCount ps := by
      ring
    have := Nat.min_le_right (aliveCount ps) d.length
    omega

theorem dealPasses_conserve (k : Nat) (ps : List LBPlayer) (d : List Card) :
    aliveHandSum (dealPasses k ps d).1 + (dealPasses k ps d).2.length =
      aliveHandSum ps + d.length := by
  induction k generalizing ps d with
  | zero => simp [dealPasses]
  | succ k ih =>
    simp only [dealPasses]
    rw [ih]
    exact dealPass_conserve ps d

theorem dealPasses_exact (k : Nat) (ps : List LBPlayer) (d : List Card)
    (h : k * aliveCount ps ≤ d.length) :
    (dealPasses k ps d).1.map (fun p => (p.alive, p.hand.length)) =
      ps.map (fun p => (p.alive, p.hand.length + if p.alive then k else 0)) := by
  induction k generalizing ps d with
  | zero => simp [dealPasses]
  | succ k ih =>
    have hmul : (k + 1) * aliveCount ps = k * aliveCount ps + aliveCount ps := by
      ring
    have ha : aliveCount ps ≤ d.length := by omega
    have hdeck : (dealPass ps d).2.length =
        d.length - aliveCount ps := by
      rw [dealPass_deck_length]
      omega
    have hrec := ih (dealPass ps d).1 (dealPass ps d).2 (by
      rw [hdeck, dealPass_aliveCount]
      omega)
    simp only [dealPasses]
    rw [hrec]
    have hone := dealPass_exact ps d ha
    have hcomp : (dealPass ps d).1.map
        (fun p => (p.alive, p.hand.length + if p.alive then k else 0)) =
        ((dealPass ps d).1.map (fun p => (p.alive, p.hand.length))).map
          (fun q => (q.1, q.2 + if q.1 then k else 0)) := by
      rw [List.map_map]
      rfl
    rw [hcomp, hone, List.map_map]
    apply List.map_congr_left
    intro p _
    by_cases hp : p.alive <;> simp [hp] <;> omega

theorem createDeck_length : createDeck.length = 20 := by
  simp [createDeck]

theorem aliveHandSum_cleared (players : List LBPlayer) :
    aliveHandSum (players.map
      (fun p => if p.alive then { p with hand := [] } else p)) = 0 := by
  induction players with
  | nil => simp [aliveHandSum]
  | cons p ps ih =>
    by_cases hp : p.alive <;>
      simp only [List.map_cons, hp, if_true, if_false] <;>
      rw [aliveHandSum_cons] <;> simp [hp, ih]

theorem aliveCount_cleared (players : List LBPlayer) :
    aliveCount (players.map
      (fun p => if p.alive then { p with hand := [] } else p)) =
      aliveCount players := by
  induction players with
  | nil => simp [aliveCount]
  | cons p ps ih =>
    by_cases hp : p.alive <;>
      simp only [List.map_cons, hp, if_true, if_false] <;>
      rw [aliveCount_cons, aliveCount_cons] <;> simp [hp, ih]

theorem dealCards_total (players : List LBPlayer) (deck : List Card) :
    aliveHandSum (dealCards players deck).1 =
      min (5 * aliveCount players) deck.length := by
  unfold dealCards
  have hcons := dealPasses_conserve 5
    (players.map (fun p => if p.alive then { p with hand := [] } else p)) deck
  have hlen := dealPasses_deck_length 5
    (players.map (fun p => if p.alive then { p with hand := [] } else p)) deck
  rw [aliveHandSum_cleared] at hcons
  rw [aliveCount_cleared] at hlen
  have := Nat.min_le_right (5 * aliveCount players) deck.length
  omega

end LB

/-- C3: validity of a play is "every card is the target or Joker"; a
challenged valid play penalizes the challenger, a challenged invalid play
penalizes the player, and an unchallenged play penalizes no one and passes
the turn to the next player. -/
theorem C3_challenge_resolution :
    (∀ (t : LB.Card) (cards : List LB.Card),
      LB.isValidPlay (some t) cards = true ↔
        ∀ c ∈ cards, c = t ∨ c = LB.Card.Joker) ∧
    (∀ (cur next : Nat) (t : Option LB.Card) (played : List LB.Card),
      LB.resolveChallengePhase cur next t played true =
        (if LB.isValidPlay t played then LB.PlayOutcome.penalized next
         else LB.PlayOutcome.penalized cur)) ∧
    (∀ (cur next : Nat) (t : Option LB.Card) (played : List LB.Card),
      LB.resolveChallengePhase cur next t played false =
        LB.PlayOutcome.turnPassed next) := by
  refine ⟨?_, ?_, ?_⟩
  · intro t cards
    simp [LB.isValidPlay, List.all_eq_true]
  · intro cur next t played
    simp [LB.resolveChallengePhase]
  · intro cur next t played
    simp [LB.resolveChallengePhase]

/-- C5: every deal uses a 6Q/6K/6A/2Joker deck of 20 cards; with at most
four alive players every alive player ends the deal holding exactly 5
cards (their hand having been cleared first, dead hands untouched) and the
dealt total is `5 * aliveCount`; with more than four alive players the
dealt total is capped at the 20-card deck size. -/
theorem C5_deal_deck_and_hands :
    (∀ deck : List LB.Card, deck.Perm LB.createDeck →
      deck.count LB.Card.Q = 6 ∧ deck.count LB.Card.K = 6 ∧
        deck.count LB.Card.A = 6 ∧ deck.count LB.Card.Joker = 2 ∧
        deck.length = 20) ∧
    (∀ (players : List LB.LBPlayer) (deck : List LB.Card),
      deck.Perm LB.createDeck → LB.aliveCount players ≤ 4 →
      (LB.dealCards players deck).1.map (fun p => (p.alive, p.hand.length)) =
        players.map (fun p => (p.alive, if p.alive then 5 else p.hand.length)) ∧
      LB.aliveHandSum (LB.dealCards players deck).1 =
        5 * LB.aliveCount players) ∧
    (∀ (players : List LB.LBPlayer) (deck : List LB.Card),
      deck.Perm LB.createDeck → 4 < LB.aliveCount players →
      LB.aliveHandSum (LB.dealCards players deck).1 = 20) := by
  have hdeal : ∀ (players : List LB.LBPlayer) (deck : List LB.Card),
      deck.Perm LB.createDeck →
      LB.aliveHandSum (LB.dealCards players deck).1 =
        min (5 * LB.aliveCount players) 20 := by
    intro players deck hperm
    rw [LB.dealCards_total players deck, hperm.length_eq, LB.createDeck_length]
  refine ⟨?_, ?_, ?_⟩
  · intro deck hperm
    refine ⟨?_, ?_, ?_, ?_, ?_⟩
    · rw [hperm.count_eq]
      decide
    · rw [hperm.count_eq]
      decide
    · rw [hperm.count_eq]
      decide
    · rw [hperm.count_eq]
      decide
    · rw [hperm.length_eq, LB.createDeck_length]
  · intro players deck hperm hle
    constructor
    · unfold LB.dealCards
      rw [LB.dealPasses_exact 5
        (players.map (fun p => if p.alive then { p with hand := [] } else p))
        deck
        (by
          rw [LB.aliveCount_cleared, hperm.length_eq, LB.createDeck_length]
          omega)]
      rw [List.map_map]
      apply List.map_congr_left
      intro p _
      by_cases hp : p.alive <;> simp [hp]
    · rw [hdeal players deck hperm]
      omega
  · intro players deck hperm hgt
    rw [hdeal players deck hperm]
    omega

/-- Concrete instantiation of `C5_deal_deck_and_hands`: three alive
players dealt from the unshuffled deck end with the dealt total
`5 * aliveCount`. -/
theorem C5_deal_deck_and_hands_witness :
    LB.createDeck.Perm LB.createDeck ∧
      LB.aliveCount LB.samplePlayers ≤ 4 ∧
      LB.aliveHandSum (LB.dealCards LB.samplePlayers LB.createDeck).1 =
        5 * LB.aliveCount LB.samplePlayers :=
  ⟨List.Perm.refl _, by decide,
    (C5_deal_deck_and_hands.2.1 LB.samplePlayers LB.createDeck
      (List.Perm.refl _) (by decide)).2⟩

namespace REG

theorem formatStrict_missing {k : String} {c : Ctx}
    (hk : lookupCtx c k = none) :
    ∀ t : List Tpl, Tpl.hole k ∈ t → formatStrict t c = none := by
  intro t
  induction t with
  | nil => intro h; simp at h
  | cons seg rest ih =>
    intro hmem
    rcases List.mem_cons.mp hmem with h | h
    · cases seg with
      | lit s => simp at h
      | hole k2 =>
        have hkk : k2 = k := by
          injection h.symm
        subst hkk
        simp [formatStrict, hk]
    · cases seg with
      | lit s => simp [formatStrict, ih h]
      | hole k2 =>
        cases hl : lookupCtx c k2 with
        | none => simp [formatStrict, hl]
        | some v => simp [formatStrict, hl, ih h]

theorem formatMapSafe_missing {k : String} {c : Ctx}
    (hk : lookupCtx c k = none) :
    ∀ t : List Tpl, Tpl.hole k ∈ t →
      ∃ pre post, formatMapSafe t c = pre ++ ("\x7b" ++ k ++ "\x7d") ++ post := by
  intro t
  induction t with
  | nil => intro h; simp at h
  | cons seg rest ih =>
    intro hmem
    rcases List.mem_cons.mp hmem with h | h
    · cases seg with
      | lit s => simp at h
      | hole k2 =>
        have hkk : k2 = k := by
          injection h.symm
        subst hkk
        refine ⟨"", formatMapSafe rest c, ?_⟩
        simp [formatMapSafe, hk, String.append_assoc]
    · obtain ⟨pre, post, heq⟩ := ih h
      cases seg with
      | lit s =>
        refine ⟨s ++ pre, post, ?_⟩
        simp [formatMapSafe, heq, String.append_assoc]
      | hole k2 =>
        cases hl : lookupCtx c k2 with
        | none =>
          refine ⟨("\x7b" ++ k2 ++ "\x7d") ++ pre, post, ?_⟩
          simp [formatMapSafe, hl, heq, String.append_assoc]
        | some v =>
          refine ⟨v ++ pre, post, ?_⟩
          simp [formatMapSafe, hl, heq, String.append_assoc]

end REG

/-- C2 counterexample: on a context missing the `role` field the
werewolf-room fallback does NOT leave the placeholder text unresolved in
its output — the strict `str.format` raises, is caught, and a fixed
default line (with no placeholder) is returned, unlike the tolerant
rendering described by the claim. -/
theorem C2_fallback_counterexample :
    WW.fallbackDialogue FIX.agentA FIX.ctxNoRole =
      "a1 在夜晚阶段给出默认回应。" ∧
    WW.fallbackDialogue FIX.agentA FIX.ctxNoRole ≠
      REG.formatMapSafe WW.fallbackTemplate FIX.ctxNoRole := by
  constructor
  · decide
  · decide

/-- C2 amended: a gateway failure or blank text always falls back to the
deterministic template built from the same context; the battle-room
renderer (`render_dialogue` through `SafeFormatDict`) leaves a missing
placeholder unresolved in its output, while the werewolf fallback catches
the strict-format failure and returns a fixed default line instead.  No
path raises. -/
theorem C2_fallback_behavior :
    (∀ (gw : Option String) (agent : REG.AgentDefinition) (c : REG.Ctx),
      pyStrip (gw.getD "") = "" →
        WW.callAgent gw agent c = WW.fallbackDialogue agent c ∧
        BR.runAgentTurnResponse gw agent c = REG.renderDialogue agent c) ∧
    (∀ (t : List REG.Tpl) (c : REG.Ctx) (k : String),
      REG.Tpl.hole k ∈ t → REG.lookupCtx c k = none →
      ∃ pre post, REG.formatMapSafe t c =
        pre ++ ("\x7b" ++ k ++ "\x7d") ++ post) ∧
    (∀ (agent : REG.AgentDefinition) (c : REG.Ctx) (k : String),
      REG.Tpl.hole k ∈ WW.fallbackTemplate → REG.lookupCtx c k = none →
      WW.fallbackDialogue agent c =
        agent.displayName ++ " 在" ++
          ((REG.lookupCtx c "phase").getD "狼人杀") ++ "阶段给出默认回应。") := by
  refine ⟨?_, ?_, ?_⟩
  · intro gw agent c h
    constructor
    · simp [WW.callAgent, h]
    · simp [BR.runAgentTurnResponse, h]
  · intro t c k hmem hk
    exact REG.formatMapSafe_missing hk t hmem
  · intro agent c k hmem hk
    have := REG.formatStrict_missing hk WW.fallbackTemplate hmem
    simp [WW.fallbackDialogue, this]

/-- Concrete instantiation of `C2_fallback_behavior` at a failed gateway
call. -/
theorem C2_fallback_behavior_witness :
    (pyStrip ((none : Option String).getD "") = "" ∧
      (WW.callAgent none FIX.agentA FIX.ctxNoRole =
          WW.fallbackDialogue FIX.agentA FIX.ctxNoRole ∧
        BR.runAgentTurnResponse none FIX.agentA FIX.ctxNoRole =
          REG.renderDialogue FIX.agentA FIX.ctxNoRole)) :=
  ⟨by decide, C2_fallback_behavior.1 none FIX.agentA FIX.ctxNoRole (by decide)⟩

theorem zipSndEq {α β : Type _} :
    ∀ (l1 : List α) (l2 : List β), l2.length ≤ l1.length →
      (l1.zip l2).map Prod.snd = l2 := by
  intro l1 l2 h
  exact List.map_snd_zip l1 l2 h

namespace WW

theorem rolePool_length {n : Nat} (h : 5 ≤ n) : (rolePool n).length = n := by
  unfold rolePool
  by_cases h6 : 6 ≤ n <;> by_cases h7 : 7 ≤ n <;>
    simp [h6, h7] <;> omega

theorem rolePool_counts {n : Nat} (h : 5 ≤ n) :
    (rolePool n).count Role.werewolf = 2 ∧
    (rolePool n).count Role.seer = 1 ∧
    (rolePool n).count Role.witch = (if 6 ≤ n then 1 else 0) ∧
    (rolePool n).count Role.hunter = (if 7 ≤ n then 1 else 0) ∧
    (rolePool n).count Role.villager =
      n - 3 - (if 6 ≤ n then 1 else 0) - (if 7 ≤ n then 1 else 0) := by
  unfold rolePool
  by_cases h6 : 6 ≤ n <;> by_cases h7 : 7 ≤ n <;>
    simp [h6, h7, List.count_append, List.count_replicate, List.count_cons] <;>
    omega

theorem assignRoles_eq_ok (agents : List REG.AgentDefinition)
    (shuffle : List Role → List Role) (h : 5 ≤ agents.length) :
    assignRoles agents shuffle =
      Except.ok ((agents.zip (shuffle (rolePool agents.length))).map
        (fun ar => { agent := ar.1, role := ar.2, alive := true,
                     knowledge := [] })) := by
  unfold assignRoles
  rw [if_neg (by omega)]

theorem assignRoles_roles (agents : List REG.AgentDefinition)
    (shuffle : List Role → List Role) (h : 5 ≤ agents.length)
    (hlen : (shuffle (rolePool agents.length)).length = agents.length) :
    ((agents.zip (shuffle (rolePool agents.length))).map
        (fun ar => ({ agent := ar.1, role := ar.2, alive := true,
                      knowledge := [] } : WerewolfPlayer))).map
      (fun p => p.role) = shuffle (rolePool agents.length) := by
  rw [List.map_map]
  exact zipSndEq agents (shuffle (rolePool agents.length)) (by omega)

end WW

/-- C4: role assignment with at least five agents yields exactly N
players with 2 werewolves, 1 seer, a witch iff N ≥ 6, a hunter iff
N ≥ 7, and villagers for the rest; with fewer than five agents it fails
with the validation error and produces no players. -/
theorem C4_role_assignment :
    (∀ (agents : List REG.AgentDefinition)
        (shuffle : List WW.Role → List WW.Role),
      (shuffle (WW.rolePool agents.length)).Perm (WW.rolePool agents.length) →
      5 ≤ agents.length →
      (WW.assignRoles agents shuffle).map List.length =
        Except.ok agents.length ∧
      (WW.assignRoles agents shuffle).map
          (fun ps => (ps.map (fun p => p.role)).count WW.Role.werewolf) =
        Except.ok 2 ∧
      (WW.assignRoles agents shuffle).map
          (fun ps => (ps.map (fun p => p.role)).count WW.Role.seer) =
        Except.ok 1 ∧
      (WW.assignRoles agents shuffle).map
          (fun ps => (ps.map (fun p => p.role)).count WW.Role.witch) =
        Except.ok (if 6 ≤ agents.length then 1 else 0) ∧
      (WW.assignRoles agents shuffle).map
          (fun ps => (ps.map (fun p => p.role)).count WW.Role.hunter) =
        Except.ok (if 7 ≤ agents.length then 1 else 0) ∧
      (WW.assignRoles agents shuffle).map
          (fun ps => (ps.map (fun p => p.role)).count WW.Role.villager) =
        Except.ok (agents.length - 3 - (if 6 ≤ agents.length then 1 else 0) -
          (if 7 ≤ agents.length then 1 else 0))) ∧
    (∀ (agents : List REG.AgentDefinition)
        (shuffle : List WW.Role → List WW.Role),
      agents.length < 5 →
      WW.assignRoles agents shuffle =
        Except.error "狼人杀至少需要 5 名玩家。") := by
  constructor
  · intro agents shuffle hperm h5
    have hlen : (shuffle (WW.rolePool agents.length)).length = agents.length := by
      rw [hperm.length_eq, WW.rolePool_length h5]
    have hok := WW.assignRoles_eq_ok agents shuffle h5
    have hroles := WW.assignRoles_roles agents shuffle h5 hlen
    have hcounts := WW.rolePool_counts (n := agents.length) h5
    refine ⟨?_, ?_, ?_, ?_, ?_, ?_⟩
    · rw [hok]
      simp only [Except.map, List.length_map, List.length_zip, hlen,
        Nat.min_self]
    · rw [hok]
      simp only [Except.map]
      rw [hroles, hperm.count_eq]
      exact congrArg Except.ok hcounts.1
    · rw [hok]
      simp only [Except.map]
      rw [hroles, hperm.count_eq]
      exact congrArg Except.ok hcounts.2.1
    · rw [hok]
      simp only [Except.map]
      rw [hroles, hperm.count_eq]
      exact congrArg Except.ok hcounts.2.2.1
    · rw [hok]
      simp only [Except.map]
      rw [hroles, hperm.count_eq]
      exact congrArg Except.ok hcounts.2.2.2.1
    · rw [hok]
      simp only [Except.map]
      rw [hroles, hperm.count_eq]
      exact congrArg Except.ok hcounts.2.2.2.2
  · intro agents shuffle h
    unfold WW.assignRoles
    rw [if_pos h]

/-- Concrete instantiation of `C4_role_assignment` with seven agents and
the identity shuffle. -/
theorem C4_role_assignment_witness :
    (id (WW.rolePool FIX.agents7.length)).Perm
        (WW.rolePool FIX.agents7.length) ∧
      5 ≤ FIX.agents7.length ∧
      (WW.assignRoles FIX.agents7 id).map
          (fun ps => (ps.map (fun p => p.role)).count WW.Role.werewolf) =
        Except.ok 2 :=
  ⟨List.Perm.refl _, by decide,
    (C4_role_assignment.1 FIX.agents7 id (List.Perm.refl _) (by decide)).2.1⟩

namespace WW

theorem nthSuchIdxAux_sound (pred : WerewolfPlayer → Bool) :
    ∀ (ps : List WerewolfPlayer) (j i0 k : Nat),
      nthSuchIdxAux pred ps j i0 = some k →
      i0 ≤ k ∧ (ps.get? (k - i0)).map pred = some true := by
  intro ps
  induction ps with
  | nil => intro j i0 k h; simp [nthSuchIdxAux] at h
  | cons p ps ih =>
    intro j i0 k h
    by_cases hp : pred p
    · by_cases hj : j = 0
      · simp [nthSuchIdxAux, hp, hj] at h
        subst h
        simp [hp]
      · simp only [nthSuchIdxAux, hp, hj, if_true, if_false] at h
        obtain ⟨h1, h2⟩ := ih (j - 1) (i0 + 1) k h
        constructor
        · omega
        · have : k - i0 = (k - (i0 + 1)) + 1 := by omega
          rw [this]
          simpa using h2
    · simp only [nthSuchIdxAux, hp, if_false] at h
      obtain ⟨h1, h2⟩ := ih j (i0 + 1) k h
      constructor
      · omega
      · have : k - i0 = (k - (i0 + 1)) + 1 := by omega
        rw [this]
        simpa using h2

theorem nthSuchIdx_sound {ps : List WerewolfPlayer}
    {pred : WerewolfPlayer → Bool} {j i : Nat}
    (h : nthSuchIdx ps pred j = some i) :
    (ps.get? i).map pred = some true := by
  have := nthSuchIdxAux_sound pred ps j 0 i h
  simpa using this.2

theorem executeWitchAction_save_effects (s : RoomState)
    (gw : String → Option String) (r : NightRand) (w : WerewolfPlayer)
    (rest : List WerewolfPlayer)
    (hfilter : s.players.filter (fun p => p.role == Role.witch && p.alive) =
      w :: rest)
    (hchosen : (witchActions s.nightTarget.isSome s.consumedSave
        s.consumedPoison).getD
      (r.witchActionPick % (witchActions s.nightTarget.isSome s.consumedSave
        s.consumedPoison).length) WitchChoice.abstain = WitchChoice.save) :
    (executeWitchAction s gw r).nightTarget = none ∧
    (executeWitchAction s gw r).consumedSave = true ∧
    (executeWitchAction s gw r).players = s.players := by
  simp only [executeWitchAction, hfilter]
  rw [hchosen]
  simp

theorem executeWitchAction_poison_effects (s : RoomState)
    (gw : String → Option String) (r : NightRand) (w : WerewolfPlayer)
    (rest : List WerewolfPlayer)
    (hfilter : s.players.filter (fun p => p.role == Role.witch && p.alive) =
      w :: rest)
    (hchosen : (witchActions s.nightTarget.isSome s.consumedSave
        s.consumedPoison).getD
      (r.witchActionPick % (witchActions s.nightTarget.isSome s.consumedSave
        s.consumedPoison).length) WitchChoice.abstain = WitchChoice.poison) :
    (executeWitchAction s gw r).nightTarget = s.nightTarget ∧
    (executeWitchAction s gw r).consumedPoison = true ∧
    (executeWitchAction s gw r).players =
      (match witchPoisonIdx s r with
       | some i => killAt s.players i
       | none => s.players) := by
  simp only [executeWitchAction, hfilter]
  rw [hchosen]
  cases hidx : witchPoisonIdx s r with
  | none => simp [hidx]
  | some i => simp [hidx]

end WW

/-- C6 counterexample: with a pending night target and both potions
unused the witch's option list is exactly `[救援, 放毒]` — abstaining is
NOT among the options, contradicting the claim that the witch chooses
among save, poison AND abstain. -/
theorem C6_witch_counterexample :
    WW.witchActions true false false =
      [WW.WitchChoice.save, WW.WitchChoice.poison] ∧
    WW.WitchChoice.abstain ∉ WW.witchActions true false false := by
  decide

/-- C6 amended: save is offered iff a target exists and the save is
unused, poison iff the poison is unused, and abstain ONLY when neither
potion action is available; the pick is uniform over that list (modelled
as an arbitrary in-range index).  A chosen save cancels the pending kill
and touches no player; a chosen poison marks the picked living non-witch
player dead immediately and leaves the pending wolf target unchanged. -/
theorem C6_witch_options_and_effects :
    (∀ ht cs cp : Bool,
      (WW.WitchChoice.save ∈ WW.witchActions ht cs cp ↔
        ht = true ∧ cs = false) ∧
      (WW.WitchChoice.poison ∈ WW.witchActions ht cs cp ↔ cp = false) ∧
      (WW.WitchChoice.abstain ∈ WW.witchActions ht cs cp ↔
        ¬(ht = true ∧ cs = false) ∧ cp = true)) ∧
    (∀ (s : WW.RoomState) (gw : String → Option String) (r : WW.NightRand)
        (w : WW.WerewolfPlayer) (rest : List WW.WerewolfPlayer),
      s.players.filter (fun p => p.role == WW.Role.witch && p.alive) =
        w :: rest →
      (WW.witchActions s.nightTarget.isSome s.consumedSave
          s.consumedPoison).getD
        (r.witchActionPick % (WW.witchActions s.nightTarget.isSome
          s.consumedSave s.consumedPoison).length) WW.WitchChoice.abstain =
        WW.WitchChoice.save →
      (WW.executeWitchAction s gw r).nightTarget = none ∧
      (WW.executeWitchAction s gw r).consumedSave = true ∧
      (WW.executeWitchAction s gw r).players = s.players) ∧
    (∀ (s : WW.RoomState) (gw : String → Option String) (r : WW.NightRand)
        (w : WW.WerewolfPlayer) (rest : List WW.WerewolfPlayer),
      s.players.filter (fun p => p.role == WW.Role.witch && p.alive) =
        w :: rest →
      (WW.witchActions s.nightTarget.isSome s.consumedSave
          s.consumedPoison).getD
        (r.witchActionPick % (WW.witchActions s.nightTarget.isSome
          s.consumedSave s.consumedPoison).length) WW.WitchChoice.abstain =
        WW.WitchChoice.poison →
      (WW.executeWitchAction s gw r).nightTarget = s.nightTarget ∧
      (WW.executeWitchAction s gw r).consumedPoison = true ∧
      (WW.executeWitchAction s gw r).players =
        (match WW.witchPoisonIdx s r with
         | some i => WW.killAt s.players i
         | none => s.players)) ∧
    (∀ (ps : List WW.WerewolfPlayer) (pred : WW.WerewolfPlayer → Bool)
        (j i : Nat),
      WW.nthSuchIdx ps pred j = some i →
      (ps.get? i).map pred = some true) := by
  refine ⟨?_, ?_, ?_, ?_⟩
  · intro ht cs cp
    cases ht <;> cases cs <;> cases cp <;> decide
  · intro s gw r w rest hfilter hchosen
    exact WW.executeWitchAction_save_effects s gw r w rest hfilter hchosen
  · intro s gw r w rest hfilter hchosen
    exact WW.executeWitchAction_poison_effects s gw r w rest hfilter hchosen
  · intro ps pred j i h
    exact WW.nthSuchIdx_sound h

/-- Concrete instantiation of `C6_witch_options_and_effects`: the witch
of `FIX.witchState` (pending target, fresh potions, pick 0) chooses the
save, which cancels the pending kill and kills nobody. -/
theorem C6_witch_options_and_effects_witness :
    (FIX.witchState.players.filter
        (fun p => p.role == WW.Role.witch && p.alive) =
      [FIX.mkPlayer "a1" WW.Role.witch]) ∧
    ((WW.witchActions FIX.witchState.nightTarget.isSome
        FIX.witchState.consumedSave FIX.witchState.consumedPoison).getD
      (FIX.zeroRand.witchActionPick %
        (WW.witchActions FIX.witchState.nightTarget.isSome
          FIX.witchState.consumedSave FIX.witchState.consumedPoison).length)
      WW.WitchChoice.abstain = WW.WitchChoice.save) ∧
    ((WW.executeWitchAction FIX.witchState (fun _ => none)
        FIX.zeroRand).nightTarget = none ∧
      (WW.executeWitchAction FIX.witchState (fun _ => none)
        FIX.zeroRand).consumedSave = true ∧
      (WW.executeWitchAction FIX.witchState (fun _ => none)
        FIX.zeroRand).players = FIX.witchState.players) :=
  ⟨by decide, by decide,
    C6_witch_options_and_effects.2.1 FIX.witchState (fun _ => none)
      FIX.zeroRand (FIX.mkPlayer "a1" WW.Role.witch) [] (by decide) (by decide)⟩

namespace WW

theorem foldl_phase (f : RoomState → WerewolfPlayer → RoomState)
    (hf : ∀ acc w, (f acc w).phase = acc.phase) :
    ∀ (l : List WerewolfPlayer) (acc : RoomState),
      (l.foldl f acc).phase = acc.phase := by
  intro l
  induction l with
  | nil => intro acc; rfl
  | cons w l ih =>
    intro acc
    rw [List.foldl_cons, ih, hf]

theorem executeWerewolfActions_phase (s : RoomState)
    (gw : String → Option String) (r : NightRand) :
    (executeWerewolfActions s gw r).phase = s.phase := by
  simp only [executeWerewolfActions]
  split
  · rfl
  · show (List.foldl _ s _).phase = s.phase
    apply foldl_phase
    intro acc w
    rfl

theorem executeSeerAction_phase (s : RoomState)
    (gw : String → Option String) (r : NightRand) :
    (executeSeerAction s gw r).phase = s.phase := by
  simp only [executeSeerAction]
  split
  · rfl
  · split
    · rfl
    · rfl

theorem executeWitchAction_phase (s : RoomState)
    (gw : String → Option String) (r : NightRand) :
    (executeWitchAction s gw r).phase = s.phase := by
  simp only [executeWitchAction]
  split
  · rfl
  · split
    · rfl
    · split
      · rfl
      · rfl
    · rfl

theorem triggerHunterRevenge_phase (s : RoomState) (hunter : WerewolfPlayer)
    (r : NightRand) :
    (triggerHunterRevenge s hunter r).phase = s.phase := by
  simp only [triggerHunterRevenge]
  split
  · rfl
  · split
    · rfl
    · rfl

theorem resolveNightOutcome_phase (s : RoomState) (r : NightRand) :
    (resolveNightOutcome s r).1.phase = s.phase := by
  simp only [resolveNightOutcome]
  split
  · split
    · rename_i i p _ _
      split
      · rw [triggerHunterRevenge_phase]
      · rfl
    · rfl
  · rfl

end WW

/-- C7 amended: the night phase NEVER re-checks victory — after the
night outcome is resolved the phase becomes `day` unconditionally
(`_check_game_end` is only invoked at the end of the day phase), so the
game can run a day phase while an end condition already holds. -/
theorem C7_night_transitions_to_day_unconditionally
    (s : WW.RoomState) (gw : String → Option String) (r : WW.NightRand) :
    (WW.runNightPhase s gw r).phase = WW.Phase.day := by
  simp only [WW.runNightPhase]
  split
  · simp
  · rename_i hcond
    exfalso
    apply hcond
    simp [WW.resolveNightOutcome_phase, WW.executeWitchAction_phase,
      WW.executeSeerAction_phase, WW.executeWerewolfActions_phase]

/-- C7 counterexample: in a five-player night (2 wolves, seer, 2
villagers, no witch) the wolves kill the seer; afterwards the werewolf
end condition (living wolves ≥ living non-wolves, here 2 ≥ 2) holds, yet
the room still enters the `day` phase — the claim that the game never
enters `day` under an end condition is false. -/
theorem C7_day_phase_under_end_condition :
    (WW.runNightPhase FIX.nightState (fun _ => none) FIX.zeroRand).phase =
      WW.Phase.day ∧
    WW.wolvesAlive
        (WW.runNightPhase FIX.nightState (fun _ => none)
          FIX.zeroRand).players = 2 ∧
    WW.nonwolvesAlive
        (WW.runNightPhase FIX.nightState (fun _ => none)
          FIX.zeroRand).players = 2 := by
  refine ⟨C7_night_transitions_to_day_unconditionally _ _ _, ?_, ?_⟩ <;> decide

/-- C10: viewer snapshots built by `to_payload` omit every player's role
whenever the phase is not `ended`, and contain exactly each player's true
role when it is. -/
theorem C10_roles_hidden_until_ended :
    (∀ s : WW.RoomState, s.phase ≠ WW.Phase.ended →
      (WW.payloadPlayers s).map (fun v => v.role) =
        List.replicate s.players.length none) ∧
    (∀ s : WW.RoomState, s.phase = WW.Phase.ended →
      (WW.payloadPlayers s).map (fun v => v.role) =
        s.players.map (fun p => some p.role)) := by
  constructor
  · intro s h
    have hb : (s.phase == WW.Phase.ended) = false := by
      simpa using h
    simp [WW.payloadPlayers, WW.toPublicDict, List.map_map, hb]
    exact List.map_const s.players none
  · intro s h
    have hb : (s.phase == WW.Phase.ended) = true := by
      simpa using h
    simp [WW.payloadPlayers, WW.toPublicDict, List.map_map, hb]

/-- Concrete instantiation of `C10_roles_hidden_until_ended` on a
night-phase room: no role appears in the snapshot. -/
theorem C10_roles_hidden_until_ended_witness :
    FIX.nightState.phase ≠ WW.Phase.ended ∧
      (WW.payloadPlayers FIX.nightState).map (fun v => v.role) =
        List.replicate FIX.nightState.players.length none :=
  ⟨by decide, C10_roles_hidden_until_ended.1 FIX.nightState (by decide)⟩

/-- C8 counterexample: the battle-room and werewolf-room appends have no
cap — a history that already holds 300 entries holds 301 after an
append, contradicting the claim that both engines keep at most 300. -/
theorem C8_history_cap_counterexample :
    (BR.appendMessage (List.replicate 300 FIX.brEntry) "system" "系统" "x" 0
      none).length = 301 ∧
    (WW.appendMessage (List.replicate 300 FIX.wwEntry) "system" "主持人" "x"
      WW.Phase.night 1 none).length = 301 := by
  constructor
  · show (List.replicate 300 FIX.brEntry ++ [_]).length = 301
    rw [List.length_append, List.length_replicate]
    rfl
  · show (List.replicate 300 FIX.wwEntry ++ [_]).length = 301
    rw [List.length_append, List.length_replicate]
    rfl

/-- C8 amended: only the card-game manager's event history is capped —
`_handle_event` keeps at most 300 entries, dropping the oldest first and
always retaining the newest; the battle-room and werewolf-room
`_append_message` grow their histories without bound. -/
theorem C8_history_cap_amended :
    (∀ (h : List LBM.EventEntry) (e : LBM.EventEntry),
      (LBM.handleEventHistory h e).length = min (h.length + 1) 300 ∧
      (LBM.handleEventHistory h e).getLast? = some e ∧
      (LBM.handleEventHistory h e).IsSuffix (h ++ [e])) ∧
    (∀ (h : List BR.HistoryEntry) (t a c : String) (n : Nat)
        (aid : Option String),
      (BR.appendMessage h t a c n aid).length = h.length + 1 ∧
      (BR.appendMessage h t a c n aid).getLast? =
        some { type := t, author := a, content := c, round := n,
               agentId := aid }) ∧
    (∀ (hist : List WW.HistoryEntry) (t a c : String) (ph : WW.Phase)
        (n : Nat) (aid : Option String),
      (WW.appendMessage hist t a c ph n aid).length = hist.length + 1) := by
  refine ⟨?_, ?_, ?_⟩
  · intro h e
    unfold LBM.handleEventHistory
    by_cases hlen : 300 < (h ++ [e]).length
    · rw [if_pos hlen]
      refine ⟨?_, ?_, ?_⟩
      · simp only [List.length_drop]
        simp at hlen ⊢
        omega
      · rw [List.getLast?_drop]
        rw [if_neg (by simp at hlen ⊢; omega)]
        exact List.getLast?_concat _
      · exact List.drop_suffix _ _
    · rw [if_neg hlen]
      refine ⟨?_, List.getLast?_concat _, List.suffix_refl _⟩
      simp at hlen ⊢
      omega
  · intro h t a c n aid
    exact ⟨by simp [BR.appendMessage], by
      simp [BR.appendMessage, List.getLast?_concat]⟩
  · intro hist t a c ph n aid
    simp [WW.appendMessage]

theorem exceptMapIsOk {ε α β : Type _} (f : α → β) (e : Except ε α) :
    (e.map f).isOk = e.isOk := by
  cases e <;> rfl

theorem dedupLengthIff {α : Type _} [DecidableEq α] (l : List α) :
    l.dedup.length = l.length ↔ l.Nodup := by
  constructor
  · intro h
    exact List.dedup_eq_self.mp ((List.dedup_sublist l).eq_of_length h)
  · intro h
    rw [List.dedup_eq_self.mpr h]

/-- C9 counterexample: a create request for the freeform battle mode with
TWO distinct known agents and non-empty name/rules is rejected with the
4-or-5 validation error and no session is created — the claim's 2-to-5
acceptance range is wrong. -/
theorem C9_two_agents_rejected :
    BR.createRoom none FIX.registry FIX.judgeJ "博弈" "规则" ["a1", "a2"] =
      (none, Except.error
        (CreateError.validation "必须选择 4 或 5 个 AI 参与博弈。")) := by
  rfl

/-- C9 amended: a battle-mode create request passes validation iff it
names between FOUR and five distinct (trimmed, non-blank) agent ids that
all resolve in the registry and the name/rules fields are non-empty after
trimming; any validation failure (in particular a single agent id) leaves
the manager without a session. -/
theorem C9_battle_create_validation :
    (∀ (registry : String → Option REG.AgentDefinition) (j : Judge)
        (nm rl : String) (ids : List String),
      (BR.validateAndBuildRoom registry j nm rl ids).isOk = true ↔
        (4 ≤ (cleanedIds ids).length ∧ (cleanedIds ids).length ≤ 5 ∧
          (cleanedIds ids).Nodup ∧ pyStrip nm ≠ "" ∧ pyStrip rl ≠ "" ∧
          (lookupAgents registry (cleanedIds ids)).isOk = true)) ∧
    (∀ (st : Option BR.BattleRoom)
        (registry : String → Option REG.AgentDefinition) (j : Judge)
        (nm rl : String) (ids : List String) (e : CreateError),
      BR.validateAndBuildRoom registry j nm rl ids = Except.error e →
      BR.createRoom st registry j nm rl ids = (st, Except.error e)) := by
  constructor
  · intro registry j nm rl ids
    simp only [BR.validateAndBuildRoom]
    split_ifs with h1 h2 h3 h4
    · simp only [Except.isOk, Except.toBool, Bool.false_eq_true, false_iff]
      rintro ⟨ha, hb, -, -, -, -⟩
      omega
    · simp only [Except.isOk, Except.toBool, Bool.false_eq_true, false_iff]
      rintro ⟨-, -, hnd, -, -, -⟩
      exact h2 ((dedupLengthIff _).mpr hnd)
    · simp only [Except.isOk, Except.toBool, Bool.false_eq_true, false_iff]
      rintro ⟨-, -, -, hnm, -, -⟩
      exact hnm h3
    · simp only [Except.isOk, Except.toBool, Bool.false_eq_true, false_iff]
      rintro ⟨-, -, -, -, hrl, -⟩
      exact hrl h4
    · rw [exceptMapIsOk]
      constructor
      · intro hok
        refine ⟨by omega, by omega, (dedupLengthIff _).mp (by omega), h3, h4, hok⟩
      · rintro ⟨-, -, -, -, -, hok⟩
        exact hok
  · intro st registry j nm rl ids e h
    simp only [BR.createRoom, h]

/-- Concrete instantiation of `C9_battle_create_validation` on the
two-agent request: the validation error leaves the manager empty. -/
theorem C9_battle_create_validation_witness :
    BR.validateAndBuildRoom FIX.registry FIX.judgeJ "博弈" "规则"
        ["a1", "a2"] =
      Except.error
        (CreateError.validation "必须选择 4 或 5 个 AI 参与博弈。") ∧
    BR.createRoom none FIX.registry FIX.judgeJ "博弈" "规则" ["a1", "a2"] =
      (none, Except.error
        (CreateError.validation "必须选择 4 或 5 个 AI 参与博弈。")) :=
  ⟨by rfl,
    C9_battle_create_validation.2 none FIX.registry FIX.judgeJ "博弈" "规则"
      ["a1", "a2"] _ (by rfl)⟩

/-- C1: for each manager, a valid create on an empty manager installs
exactly one session; a valid second create while a session is active
fails with the AlreadyActive error and returns the manager (and the
active session) unchanged.  For the card-game manager the active check
runs before all validation, so ANY second create fails that way. -/
theorem C1_single_active_session :
    (∀ (registry : String → Option REG.AgentDefinition) (j : Judge)
        (nm rl : String) (ids : List String) (room : BR.BattleRoom),
      BR.validateAndBuildRoom registry j nm rl ids = Except.ok room →
      BR.createRoom none registry j nm rl ids = (some room, Except.ok room)) ∧
    (∀ (room0 : BR.BattleRoom)
        (registry : String → Option REG.AgentDefinition) (j : Judge)
        (nm rl : String) (ids : List String) (room : BR.BattleRoom),
      BR.validateAndBuildRoom registry j nm rl ids = Except.ok room →
      BR.createRoom (some room0) registry j nm rl ids =
        (some room0, Except.error (CreateError.alreadyActive "房间已存在"))) ∧
    (∀ (registry : String → Option REG.AgentDefinition) (j : Judge)
        (vn bg sr : String) (ids : List String) (ob : String)
        (rs : List WW.Role → List WW.Role)
        (psh : List WW.WerewolfPlayer → List WW.WerewolfPlayer)
        (room : WW.RoomState),
      WW.validateAndBuildRoom registry j vn bg sr ids rs psh =
        Except.ok room →
      WW.createRoom none registry j vn bg sr ids ob rs psh =
        (some (WW.startGame room ob), Except.ok (WW.startGame room ob))) ∧
    (∀ (room0 : WW.RoomState)
        (registry : String → Option REG.AgentDefinition) (j : Judge)
        (vn bg sr : String) (ids : List String) (ob : String)
        (rs : List WW.Role → List WW.Role)
        (psh : List WW.WerewolfPlayer → List WW.WerewolfPlayer)
        (room : WW.RoomState),
      WW.validateAndBuildRoom registry j vn bg sr ids rs psh =
        Except.ok room →
      WW.createRoom (some room0) registry j vn bg sr ids ob rs psh =
        (some room0,
         Except.error (CreateError.alreadyActive "狼人杀房间已存在"))) ∧
    (∀ (st : LBM.ManagerState)
        (registry : String → Option REG.AgentDefinition)
        (title sc : String) (ids : List String),
      st.game.isSome = true → st.threadAlive = true →
      LBM.createGame st registry title sc ids =
        (st, Except.error (CreateError.alreadyActive "已有游戏正在运行。"))) ∧
    (∀ (st : LBM.ManagerState)
        (registry : String → Option REG.AgentDefinition)
        (title sc : String) (ids : List String)
        (configs : List (String × String)),
      (st.game.isSome && st.threadAlive) = false →
      2 ≤ ids.length →
      LBM.buildPlayerConfigs registry ids = Except.ok configs →
      LBM.createGame st registry title sc ids =
        ({ game := some (configs.map (fun c => c.1)),
           threadAlive := true,
           history := [],
           stateRec := some
             { title := if title ≠ "" then title else "AI 骗子酒馆对决",
               scenario := sc, status := "preparing", round := 0,
               winner := none },
           playerOrder := configs.map (fun c => c.1) },
         Except.ok (configs.map (fun c => c.1)))) := by
  refine ⟨?_, ?_, ?_, ?_, ?_, ?_⟩
  · intro registry j nm rl ids room h
    simp only [BR.createRoom, h]
  · intro room0 registry j nm rl ids room h
    simp only [BR.createRoom, h]
  · intro registry j vn bg sr ids ob rs psh room h
    simp only [WW.createRoom, h]
  · intro room0 registry j vn bg sr ids ob rs psh room h
    simp only [WW.createRoom, h]
  · intro st registry title sc ids hg ht
    simp only [LBM.createGame, hg, ht, Bool.and_self, if_true]
  · intro st registry title sc ids configs hact hlen hb
    simp only [LBM.createGame, hact, Bool.false_eq_true, if_false, hb]
    rw [if_neg (by omega)]

/-- Concrete instantiation of `C1_single_active_session`: a second valid
four-agent battle create while a room is active fails with AlreadyActive
and leaves the existing room in place. -/
theorem C1_single_active_session_witness :
    BR.validateAndBuildRoom FIX.registry FIX.judgeJ "博弈" "规则"
        ["a1", "a2", "a3", "a4"] = Except.ok FIX.builtBattleRoom ∧
    BR.createRoom (some FIX.battleRoom0) FIX.registry FIX.judgeJ "博弈"
        "规则" ["a1", "a2", "a3", "a4"] =
      (some FIX.battleRoom0,
       Except.error (CreateError.alreadyActive "房间已存在")) :=
  ⟨by rfl,
    C1_single_active_session.2.1 FIX.battleRoom0 FIX.registry FIX.judgeJ
      "博弈" "规则" ["a1", "a2", "a3", "a4"] FIX.builtBattleRoom (by rfl)⟩
